/-
Verification of the SPC outlook / IEM warnings tools.

Shallow embedding of the two Python source files
  src/spc_outlook_tool.py
  src/iem_warnings_tool.py
into Lean 4.  Pure dataframe/filter/sort logic is translated into
executable Lean functions over explicit lists of feature rows; the
external GIS/network libraries (shapely, requests, geopandas) are
abstracted at their call boundary and documented where they appear.
-/
import Mathlib

namespace SpcTool

/-! ## Generic string helpers

Python/pandas string operations used by the tools, re-implemented over
`List Char`.  Python compares strings lexicographically by code point,
which is exactly `Char.toNat` comparison. -/

/-- Is `pat` a prefix of `s` (character lists)? -/
def charPrefix : List Char → List Char → Bool
  | [], _ => true
  | _ :: _, [] => false
  | a :: as, b :: bs => a == b && charPrefix as bs

/-- Does `s` contain `pat` as a contiguous sublist?  Models Python's
substring containment (`pat in s`, `Series.str.contains(pat)` for a
plain, non-regex-significant pattern such as "DRY" or "FIRE"). -/
def charSub (pat : List Char) : List Char → Bool
  | [] => charPrefix pat []
  | s@(_ :: rest) => charPrefix pat s || charSub pat rest

/-- `strContainsSub s pat` : does string `s` contain substring `pat`? -/
def strContainsSub (s pat : String) : Bool :=
  charSub pat.toList s.toList

/-- Lexicographic less-or-equal on character lists, comparing code
points, exactly as Python compares strings. -/
def strLeCh : List Char → List Char → Bool
  | [], _ => true
  | _ :: _, [] => false
  | a :: as, b :: bs =>
    if a.toNat < b.toNat then true
    else if b.toNat < a.toNat then false
    else strLeCh as bs

/-- Lexicographic less-or-equal on strings (Python's `<=` on `str`). -/
def strLe (a b : String) : Bool :=
  strLeCh a.toList b.toList

/-- Is `c` an ASCII decimal digit? -/
def isDigitCh (c : Char) : Bool :=
  48 ≤ c.toNat && c.toNat ≤ 57

/-- Is `c` ASCII whitespace (as stripped by Python's `str.strip()`)? -/
def isSpaceCh (c : Char) : Bool :=
  c.toNat == 32 || c.toNat == 9 || c.toNat == 10 ||
  c.toNat == 13 || c.toNat == 11 || c.toNat == 12

/-- The numeric value of a digit string, most significant digit first. -/
def digitsToNat (l : List Char) : Nat :=
  l.foldl (fun n c => n * 10 + (c.toNat - 48)) 0

/-- Python's `str.upper()` restricted to ASCII (all tokens of these
tools are ASCII). -/
def pyUpper (s : String) : String :=
  String.mk (s.toList.map (fun c =>
    if 97 ≤ c.toNat ∧ c.toNat ≤ 122 then Char.ofNat (c.toNat - 32) else c))

/-- Python's `str.lower()` restricted to ASCII. -/
def pyLower (s : String) : String :=
  String.mk (s.toList.map (fun c =>
    if 65 ≤ c.toNat ∧ c.toNat ≤ 90 then Char.ofNat (c.toNat + 32) else c))

/-- Python's `str.strip()`: drop leading and trailing whitespace. -/
def pyTrim (s : String) : String :=
  String.mk (((s.toList.dropWhile (fun c => isSpaceCh c)).reverse.dropWhile
    (fun c => isSpaceCh c)).reverse)

/-- `s.replace('z', '')`: removing every occurrence of the one-character
pattern `"z"` is exactly filtering out the character `z`. -/
def stripZ (s : String) : String :=
  String.mk (s.toList.filter (fun c => c ≠ 'z'))

/-- Python's `int(s)`: optional surrounding whitespace, an optional
sign, then at least one digit; everything else raises `ValueError`
(modelled `none`).  (Underscored digit groups accepted by Python do
not occur among these tools' tokens.) -/
def pyToInt? (s : String) : Option Int :=
  let cs := (s.toList.dropWhile (fun c => isSpaceCh c)).reverse.dropWhile
    (fun c => isSpaceCh c) |>.reverse
  match cs with
  | '-' :: rest =>
    if rest ≠ [] ∧ rest.all (fun c => isDigitCh c) then
      some (-(digitsToNat rest : Int)) else none
  | '+' :: rest =>
    if rest ≠ [] ∧ rest.all (fun c => isDigitCh c) then
      some (digitsToNat rest : Int) else none
  | l =>
    if l ≠ [] ∧ l.all (fun c => isDigitCh c) then
      some (digitsToNat l : Int) else none

/-- Split a character list on a separator character (Python's
`str.split(sep)` for a one-character separator). -/
def splitChar (sep : Char) : List Char → List (List Char)
  | [] => [[]]
  | c :: rest =>
    match splitChar sep rest with
    | [] => [[]]
    | g :: gs => if c = sep then [] :: g :: gs else (c :: g) :: gs

/-- Python's `s.split(',')` followed by `.strip().lower()` on each
piece, as in `[h.strip().lower() for h in args.hazard.split(',')]`. -/
def parseListArg (s : String) : List String :=
  (splitChar ',' s.toList).map (fun t => pyLower (pyTrim (String.mk t)))

/-! ## Generic stable insertion sort and first-occurrence dedup

Models Python's `sorted(...)` and pandas' `sort_values`/`unique`:
`sorted` and `sort_values(kind default)` order elements ascending by
the supplied key; `Series.unique()` keeps the first occurrence of each
value in order of appearance. -/

/-- Insert `a` into `l`, placing it before the first element `b` with
`le a b`.  With a total preorder `le` this is the stable insertion step. -/
def insertLe {α : Type} (le : α → α → Bool) (a : α) : List α → List α
  | [] => [a]
  | b :: bs => if le a b then a :: b :: bs else b :: insertLe le a bs

/-- Stable insertion sort by the boolean relation `le`. -/
def sortByLe {α : Type} (le : α → α → Bool) : List α → List α
  | [] => []
  | a :: as => insertLe le a (sortByLe le as)

/-- Auxiliary for `pandasUnique`: drop elements already in `seen`. -/
def uniqueAux {α : Type} [DecidableEq α] (seen : List α) : List α → List α
  | [] => []
  | a :: as => if a ∈ seen then uniqueAux seen as else a :: uniqueAux (a :: seen) as

/-- First-occurrence de-duplication, as pandas' `Series.unique()`. -/
def pandasUnique {α : Type} [DecidableEq α] (l : List α) : List α :=
  uniqueAux [] l

/-! ## Geometries

A shapely geometry is abstracted to an identity plus a validity flag.
`buffer0` models shapely's `geom.buffer(0)` zero-buffer repair, which
returns a valid geometry covering the same area; validity is the only
geometric property the tools' code inspects (`geom.is_valid`). -/

structure Geom where
  gid : Nat
  valid : Bool
deriving DecidableEq, Repr

/-- Model of shapely's zero-buffer repair: the repaired geometry is valid. -/
def buffer0 (g : Geom) : Geom :=
  { g with valid := true }

/-! ## Outlook feature rows

One row of the combined outlook feature table
(`pd.concat` of all shapefiles in the downloaded archive,
src/spc_outlook_tool.py line 231).  `CATEGORY` is `Option String` so
that a pandas `NaN` in the column is `none` (`str.contains(..., na=False)`
then yields `false`, and `NaN == 'X'` is `false`). -/

structure Row where
  CYCLE : Int
  CATEGORY : Option String
  THRESHOLD : String
  geometry : Geom
deriving DecidableEq, Repr

/-- `cycle_data['CATEGORY'] == s` for one row (pandas equality; NaN
compares unequal to every string). -/
def catEq (r : Row) (s : String) : Bool :=
  r.CATEGORY == some s

/-- `cycle_data['CATEGORY'].str.contains(pat, na=False)` for one row. -/
def catContains (r : Row) (pat : String) : Bool :=
  match r.CATEGORY with
  | some s => strContainsSub s pat
  | none => false

/-! ## Cycle normalization and partitioning
(src/spc_outlook_tool.py `process_shapefiles_selective`, lines 230-255) -/

/-- `sorted(combined['CYCLE'].unique())` (line 235): the sorted,
first-occurrence-deduplicated list of raw cycle values.  The raw values
are passed through unchanged — the function applies no remapping. -/
def allCyclesOf (rows : List Row) : List Int :=
  sortByLe (fun a b => decide (a ≤ b)) (pandasUnique (rows.map (fun r => r.CYCLE)))

/-- `combined[combined['CYCLE'] == cycle]` (line 255): the per-cycle
slice of the combined table. -/
def cycleSubset (rows : List Row) (c : Int) : List Row :=
  rows.filter (fun r => r.CYCLE == c)

/-- `int(cycle_filter.replace('z', ''))` (line 244): strip every `z`
and parse as an integer; `none` models Python's `ValueError`. -/
def parseCycleToken (s : String) : Option Int :=
  pyToInt? (stripZ s)

/-- Cycle-selector resolution (lines 238-250): `None` → all cycles;
`"latest"` → the last element of the sorted cycle list
(`all_cycles[-1]`, an IndexError — modelled `none` — on an empty list);
an explicit token → the matching cycles, falling back to all cycles
(with a printed warning) when no cycle matches; a token `int()` cannot
parse raises, modelled `none`. -/
def resolveCycles (cycleFilter : Option String) (allCycles : List Int) :
    Option (List Int) :=
  match cycleFilter with
  | none => some allCycles
  | some cf =>
    if cf = "latest" then
      (allCycles.getLast?).map (fun c => [c])
    else
      match parseCycleToken cf with
      | none => none
      | some n =>
        let cs := allCycles.filter (fun c => c == n)
        some (if cs.isEmpty then allCycles else cs)

/-! ## Hazard subsets -/

/-- The `hazards` dictionary of `process_shapefiles_selective`
(lines 261-269), as a lookup from hazard name to the filtered subset of
one cycle's rows.  `none` models `hazards.get(hazard)` returning `None`
for an unknown key.  The source guards the `fire`/`dryt` entries on the
presence of the `CATEGORY` column; the combined SPC table always carries
it, and row-level `NaN` is covered by `Option` in `Row.CATEGORY`. -/
def processHazardSubset (hazard : String) (cycleData : List Row) :
    Option (List Row) :=
  if hazard = "categorical" then some (cycleData.filter (fun r => catEq r "CATEGORICAL"))
  else if hazard = "tornado" then some (cycleData.filter (fun r => catEq r "TORNADO"))
  else if hazard = "wind" then some (cycleData.filter (fun r => catEq r "WIND"))
  else if hazard = "hail" then some (cycleData.filter (fun r => catEq r "HAIL"))
  else if hazard = "fire" then some (cycleData.filter (fun r => catContains r "FIRE"))
  else if hazard = "dryt" then some (cycleData.filter (fun r => catContains r "DRY"))
  else if hazard = "tstm" then
    some (cycleData.filter (fun r => catEq r "CATEGORICAL" && r.THRESHOLD == "TSTM"))
  else none

/-- `plot_configs` of `create_plots_selective` (lines 361-369): hazard
name → (category key, plot title). -/
def plotConfigs (hazard : String) : Option (String × String) :=
  if hazard = "categorical" then some ("CATEGORICAL", "Categorical Outlook")
  else if hazard = "tornado" then some ("TORNADO", "Tornado Probability")
  else if hazard = "wind" then some ("WIND", "Wind Probability")
  else if hazard = "hail" then some ("HAIL", "Hail Probability")
  else if hazard = "fire" then some ("FIRE", "Fire Weather Outlook")
  else if hazard = "dryt" then some ("DRYT", "Dry Thunderstorm Outlook")
  else if hazard = "tstm" then some ("TSTM", "General Thunderstorm Outlook")
  else none

/-- The data-filter chain of `create_plots_selective` (lines 381-388):
`FIRE` → substring FIRE; `DRY` → substring DRY; `TSTM` → categorical
rows with threshold TSTM; anything else → exact category equality.
Note the `DRY` branch: no entry of `plotConfigs` produces the category
key `"DRY"` (the `dryt` entry produces `"DRYT"`), so `"DRYT"` falls to
the exact-equality branch. -/
def plotFilter (category : String) (cycleData : List Row) : List Row :=
  if category = "FIRE" then cycleData.filter (fun r => catContains r "FIRE")
  else if category = "DRY" then cycleData.filter (fun r => catContains r "DRY")
  else if category = "TSTM" then
    cycleData.filter (fun r => catEq r "CATEGORICAL" && r.THRESHOLD == "TSTM")
  else cycleData.filter (fun r => catEq r category)

/-- `hazard_configs` of `create_html_map_selective` (lines 555-563):
hazard name → (display name, category key). -/
def htmlConfigs (hazard : String) : Option (String × String) :=
  if hazard = "categorical" then some ("Categorical", "CATEGORICAL")
  else if hazard = "tornado" then some ("Tornado", "TORNADO")
  else if hazard = "wind" then some ("Wind", "WIND")
  else if hazard = "hail" then some ("Hail", "HAIL")
  else if hazard = "fire" then some ("Fire Weather", "FIRE")
  else if hazard = "dryt" then some ("Dry Thunderstorm", "DRYT")
  else if hazard = "tstm" then some ("Thunderstorm", "TSTM")
  else none

/-- The data-filter chain of `create_html_map_selective` (lines 572-580),
identical in structure to `plotFilter` (and with the same unreachable
`"DRY"` branch, since the `dryt` config key is `"DRYT"`). -/
def htmlFilter (category : String) (cycleData : List Row) : List Row :=
  if category = "FIRE" then cycleData.filter (fun r => catContains r "FIRE")
  else if category = "DRY" then cycleData.filter (fun r => catContains r "DRY")
  else if category = "TSTM" then
    cycleData.filter (fun r => catEq r "CATEGORICAL" && r.THRESHOLD == "TSTM")
  else cycleData.filter (fun r => catEq r category)

/-! ## Threshold ordering in the exporters -/

/-- `sorted(plot_data['THRESHOLD'].unique())`
(`create_plots_selective`, line 396): the draw order of the threshold
buckets in the raster plot is the plain Python `sorted` of the distinct
threshold strings, i.e. lexicographic by code point. -/
def plotThresholds (rows : List Row) : List String :=
  sortByLe strLe (pandasUnique (rows.map (fun r => r.THRESHOLD)))

/-- `cat_order` of the interactive-map exporter (line 585). -/
def catOrder : List String :=
  ["TSTM", "MRGL", "SLGT", "ENH", "MDT", "HIGH"]

/-- The sort key assigned by
`THRESHOLD.map({cat: i for i, cat in enumerate(cat_order)})`
(lines 586-588): the ladder index of the threshold.  A token outside
the ladder maps to pandas `NaN`, which `sort_values` places last;
modelled as the key `catOrder.length`. -/
def catKey (t : String) : Nat :=
  (catOrder.findIdx? (fun c => c == t)).getD catOrder.length

/-- `safe_float` of the interactive-map exporter (lines 592-596):
`float(x)` with `999.0` for anything unparsable (the `SIGN` token).
Python's `float` is modelled on the decimal token forms that occur
(digit strings with at most one dot), giving the exact rational value;
for such short decimals the ordering of the IEEE doubles coincides with
the rational ordering. -/
def safeFloat (x : String) : Rat :=
  let parsed : Option Rat :=
    match splitChar '.' x.toList with
    | [w] =>
      if w ≠ [] ∧ w.all (fun c => isDigitCh c) then
        some (mkRat (digitsToNat w) 1) else none
    | [w, f] =>
      if (w ≠ [] ∨ f ≠ []) ∧ w.all (fun c => isDigitCh c) ∧
          f.all (fun c => isDigitCh c) then
        some (mkRat (digitsToNat (w ++ f)) (10 ^ f.length)) else none
    | _ => none
  parsed.getD 999

/-- `hazard_data.sort_values('sort_order')` for a categorical layer
(lines 584-589): rows ordered ascending by ladder index. -/
def htmlCatSorted (rows : List Row) : List Row :=
  sortByLe (fun r s => decide (catKey r.THRESHOLD ≤ catKey s.THRESHOLD)) rows

/-- `hazard_data.sort_values('sort_order')` for a probabilistic layer
(lines 591-598): rows ordered ascending by `safe_float` of the
threshold. -/
def htmlNumSorted (rows : List Row) : List Row :=
  sortByLe (fun r s => decide (safeFloat r.THRESHOLD ≤ safeFloat s.THRESHOLD)) rows

/-- The order in which distinct threshold buckets are drawn on the
interactive map: first occurrence order along the sorted row list
(polygons are added by iterating the sorted rows, line 601). -/
def htmlBucketOrder (category : String) (rows : List Row) : List String :=
  if category = "CATEGORICAL" then
    pandasUnique ((htmlCatSorted rows).map (fun r => r.THRESHOLD))
  else
    pandasUnique ((htmlNumSorted rows).map (fun r => r.THRESHOLD))

/-! ## Outlook shapefile export

`process_shapefiles_selective` writes a hazard subset with
`data.to_file(shp_path)` (lines 282-284): the rows' geometries are
written exactly as they stand in the table — there is no repair step
on this path. -/

/-- The geometries written into `{hazard}_{date}_{cycle}z.shp`. -/
def outlookShpGeoms (data : List Row) : List Geom :=
  data.map (fun r => r.geometry)

/-! ## Outlook fetch with geometry-variant fallback
(`fetch_outlook_data`, lines 116-137) -/

/-- One HTTP attempt's outcome: a response with a status code and a
body, or a raised `requests` exception. -/
inductive Resp where
  | ok (status : Nat) (body : String)
  | exc
deriving DecidableEq, Repr

/-- The geometry-parameter variants tried, in order (line 117):
no `geom` parameter, then `geom=lyr`, then `geom=nolyr`. -/
def variants : List (Option String) :=
  [none, some "lyr", some "nolyr"]

/-- Did this attempt come back `200`?  (Body content is not inspected.) -/
def ok200 : Resp → Bool
  | .ok s _ => s == 200
  | .exc => false

/-- The loop body of `fetch_outlook_data`: status 200 → save the body
and return; status 422 → `continue`; any other status falls off the
`if/elif` and the loop continues identically; an exception is caught,
printed, and the loop continues.  `none` models reaching
`raise RuntimeError(...)` after the loop. -/
def goFetch (resp : Option String → Resp) :
    List (Option String) → Option (Option String × String)
  | [] => none
  | g :: gs =>
    match resp g with
    | .ok s body => if s == 200 then some (g, body) else goFetch resp gs
    | .exc => goFetch resp gs

/-- `fetch_outlook_data`, abstracted over what the service returns for
each geometry variant. -/
def fetchOutlook (resp : Option String → Resp) :
    Option (Option String × String) :=
  goFetch resp variants

/-! ## Outlook CLI validation (`main`, lines 796-852)

`main` validates the date string, then the hazard list, the format
list and the cycle token, and only then calls `fetch_outlook_data`
(line 851) — the first network action of the program.  The date-format
check precedes everything and involves no tokens of these claims. -/

/-- `valid_hazards` (lines 800-803), keyed by the outlook type. -/
def validHazardsFor (otype : String) : List String :=
  if otype = "fire" then ["fire", "dryt"]
  else ["categorical", "tornado", "wind", "hail", "tstm"]

/-- `valid_formats` (line 812). -/
def validFormats : List String :=
  ["shp", "geojson", "png", "html"]

/-- `valid_cycles` (line 828). -/
def validCyclesList : List Int :=
  [1, 6, 13, 1630, 20]

/-- What `main` does up to (and not including) the fetch. -/
inductive MainOutcome where
  | earlyExit (code : Nat)
  | fetchAttempt
deriving DecidableEq, Repr

/-- The validation prefix of `main`: each hazard token must be in the
type-specific allow-list (lines 798-807, `sys.exit(1)` otherwise), each
format token in `valid_formats` (lines 810-816), and the cycle token —
unless `latest` — must parse (after removing `z`) to an integer that,
with `16` aliased to `1630`, lies in `valid_cycles` (lines 818-834).
Only when all checks pass does control reach the
`fetch_outlook_data` call (line 851), modelled by `.fetchAttempt`. -/
def mainUpToFetch (otype : String)
    (hazardArg formatArg cycleArg : Option String) : MainOutcome :=
  let hazardOk :=
    match hazardArg with
    | none => true
    | some s => (parseListArg s).all (fun h => (validHazardsFor otype).contains h)
  if !hazardOk then .earlyExit 1 else
  let formatOk :=
    match formatArg with
    | none => true
    | some s => (parseListArg s).all (fun f => validFormats.contains f)
  if !formatOk then .earlyExit 1 else
  let cycleOk :=
    match cycleArg with
    | none => true
    | some c =>
      let cf := pyLower c
      if cf = "latest" then true
      else
        match pyToInt? (stripZ cf) with
        | none => false
        | some n =>
          let n' := if n = 16 then 1630 else n
          validCyclesList.contains n'
  if !cycleOk then .earlyExit 1 else .fetchAttempt

/-! ## Warnings tool (src/iem_warnings_tool.py) -/

/-- The feature properties the filters inspect; a missing key
(`properties.get(...)` returning `None`) is `none`. -/
structure WProps where
  phenomena : Option String
  significance : Option String
deriving DecidableEq, Repr

/-- One storm-based-warning GeoJSON feature. -/
structure WFeature where
  props : WProps
  geometry : Geom
deriving DecidableEq, Repr

/-- The feature-collection dictionary returned by the SBW endpoint,
restricted to the keys the tool reads or writes: `features`, `count`
and the pass-through `valid_at` timestamp. -/
structure WData where
  features : List WFeature
  count : Nat
  valid_at : String
deriving DecidableEq, Repr

/-- `f['properties'].get('phenomena') == phenomena.upper()` (line 89). -/
def phenMatch (p : String) (f : WFeature) : Bool :=
  f.props.phenomena == some (pyUpper p)

/-- `f['properties'].get('significance') == significance.upper()` (line 94). -/
def sigMatch (g : String) (f : WFeature) : Bool :=
  f.props.significance == some (pyUpper g)

/-- The client-side filter stage of `fetch_current_warnings`
(lines 80-98): apply the phenomena filter when given, then the
significance filter when given, then overwrite `features` and `count`.
(The Python guards `if phenomena:` / `if significance:` are falsy for
`None`; the CLI passes `None` for an omitted flag.) -/
def fetchFilter (phen sig : Option String) (d : WData) : WData :=
  let fs := d.features
  let fs := match phen with
    | none => fs
    | some p => fs.filter (fun f => phenMatch p f)
  let fs := match sig with
    | none => fs
    | some g => fs.filter (fun f => sigMatch g f)
  { d with features := fs, count := fs.length }

/-- The spec's order-insensitivity reading of the same stage, applying
the significance filter first.  This definition follows the spec's
words ("independent, order-insensitive AND predicates"), to be compared
with `fetchFilter`, which follows the source's fixed order. -/
def fetchFilterSigFirst (phen sig : Option String) (d : WData) : WData :=
  let fs := d.features
  let fs := match sig with
    | none => fs
    | some g => fs.filter (fun f => sigMatch g f)
  let fs := match phen with
    | none => fs
    | some p => fs.filter (fun f => phenMatch p f)
  { d with features := fs, count := fs.length }

/-- `fetch_current_warnings` (lines 63-104), abstracted over the HTTP
layer: `raw = none` models a transport error or non-2xx response
(`raise_for_status`), on which the function returns `None`; otherwise
the parsed collection is filtered client-side. -/
def fetchCurrentWarnings (raw : Option WData) (phen sig : Option String) :
    Option WData :=
  match raw with
  | none => none
  | some d => some (fetchFilter phen sig d)

/-- The zero-buffer repair of `save_shapefile` (line 124):
`geom if geom.is_valid else geom.buffer(0)`. -/
def fixGeom (g : Geom) : Geom :=
  if g.valid then g else buffer0 g

/-- An output file written by the warnings tool's `main`. -/
inductive WEvent where
  | wroteGeoJson (d : WData)
  | wroteShapefile (gs : List Geom)
deriving DecidableEq, Repr

/-- The warnings tool's `main` (lines 169-259), reduced to its exit
code and the files it writes: exit 1 when the fetch returned `None`
(line 222-224); otherwise GeoJSON is written for formats
`geojson`/`both` (unconditionally, lines 241-243), the shapefile for
formats `shp`/`both` only when the collection has features
(`save_shapefile` returns without writing otherwise, lines 114-118),
with each written geometry passed through the zero-buffer fix; then
the run completes (exit code 0). -/
def warnMain (raw : Option WData) (fmt : String) (phen sig : Option String) :
    Nat × List WEvent :=
  match fetchCurrentWarnings raw phen sig with
  | none => (1, [])
  | some data =>
    let evG := if fmt ∈ ["geojson", "both"] then [WEvent.wroteGeoJson data] else []
    let evS :=
      if fmt ∈ ["shp", "both"] then
        if data.features.isEmpty then []
        else [WEvent.wroteShapefile (data.features.map (fun f => fixGeom f.geometry))]
      else []
    (0, evG ++ evS)

/-! ## Concrete fixtures used by counterexamples and witnesses -/

/-- A valid geometry. -/
def exGeom : Geom := { gid := 0, valid := true }

/-- An invalid (self-intersecting) geometry as the upstream service
occasionally emits. -/
def exBadGeom : Geom := { gid := 7, valid := false }

/-- A feature carrying the raw sentinel cycle value `-1`. -/
def negCycleRow : Row :=
  { CYCLE := -1, CATEGORY := some "CATEGORICAL", THRESHOLD := "TSTM", geometry := exGeom }

/-- A fire-weather feature whose category is `ISODRYT`. -/
def isoRow : Row :=
  { CYCLE := 17, CATEGORY := some "ISODRYT", THRESHOLD := "ISODRYT", geometry := exGeom }

/-- A categorical subset carrying thresholds {MDT, TSTM, SLGT, HIGH}. -/
def catRowsEx : List Row :=
  [ { CYCLE := 20, CATEGORY := some "CATEGORICAL", THRESHOLD := "MDT", geometry := exGeom },
    { CYCLE := 20, CATEGORY := some "CATEGORICAL", THRESHOLD := "TSTM", geometry := exGeom },
    { CYCLE := 20, CATEGORY := some "CATEGORICAL", THRESHOLD := "SLGT", geometry := exGeom },
    { CYCLE := 20, CATEGORY := some "CATEGORICAL", THRESHOLD := "HIGH", geometry := exGeom } ]

/-- A probabilistic subset carrying thresholds {0.45, 0.05, SIGN, 0.30}. -/
def numRowsEx : List Row :=
  [ { CYCLE := 20, CATEGORY := some "TORNADO", THRESHOLD := "0.45", geometry := exGeom },
    { CYCLE := 20, CATEGORY := some "TORNADO", THRESHOLD := "0.05", geometry := exGeom },
    { CYCLE := 20, CATEGORY := some "TORNADO", THRESHOLD := "SIGN", geometry := exGeom },
    { CYCLE := 20, CATEGORY := some "TORNADO", THRESHOLD := "0.30", geometry := exGeom } ]

/-- A service where the first variant answers 200 with an empty body
and the second would have answered 200 with a payload. -/
def respEmptyBody : Option String → Resp := fun g =>
  match g with
  | none => .ok 200 ""
  | some _ => .ok 200 "payload"

/-- A service where the default variant is rejected with 422 and
`geom=lyr` succeeds. -/
def resp422 : Option String → Resp := fun g =>
  match g with
  | none => .ok 422 "unsupported"
  | some "lyr" => .ok 200 "zipdata"
  | some _ => .exc

/-- A service where the default variant answers 404, `geom=lyr` raises
a transport exception, and `geom=nolyr` succeeds. -/
def resp404 : Option String → Resp := fun g =>
  match g with
  | none => .ok 404 "not found"
  | some "lyr" => .exc
  | some _ => .ok 200 "zipdata"

/-- A feature table spanning the five convective cycles, out of order. -/
def cyclesRowsEx : List Row :=
  [ { CYCLE := 20, CATEGORY := some "CATEGORICAL", THRESHOLD := "MRGL", geometry := exGeom },
    { CYCLE := 1, CATEGORY := some "CATEGORICAL", THRESHOLD := "MRGL", geometry := exGeom },
    { CYCLE := 13, CATEGORY := some "CATEGORICAL", THRESHOLD := "MRGL", geometry := exGeom },
    { CYCLE := 6, CATEGORY := some "CATEGORICAL", THRESHOLD := "MRGL", geometry := exGeom },
    { CYCLE := 16, CATEGORY := some "CATEGORICAL", THRESHOLD := "MRGL", geometry := exGeom } ]

/-- A warning collection with a single severe-thunderstorm warning. -/
def rawSV : WData :=
  { features := [ { props := { phenomena := some "SV", significance := some "W" },
                    geometry := exGeom } ],
    count := 1,
    valid_at := "2025-10-12T00:00:00Z" }

/-- A warning collection carrying one invalid geometry. -/
def rawBadGeom : WData :=
  { features := [ { props := { phenomena := some "TO", significance := some "W" },
                    geometry := exBadGeom } ],
    count := 1,
    valid_at := "2025-10-12T00:00:00Z" }

/-! ## Generic lemmas about the sort / dedup helpers -/

theorem insertLe_perm {α : Type} (le : α → α → Bool) (a : α) (l : List α) :
    List.Perm (insertLe le a l) (a :: l) := by
  induction l with
  | nil => simp [insertLe]
  | cons b bs ih =>
    simp only [insertLe]
    by_cases h : le a b = true
    · simp [h]
    · simp only [h, if_false]
      exact (ih.cons b).trans (List.Perm.swap a b bs)

theorem sortByLe_perm {α : Type} (le : α → α → Bool) (l : List α) :
    List.Perm (sortByLe le l) l := by
  induction l with
  | nil => simp [sortByLe]
  | cons a as ih =>
    exact (insertLe_perm le a (sortByLe le as)).trans (ih.cons a)

theorem mem_sortByLe {α : Type} (le : α → α → Bool) (l : List α) (x : α) :
    x ∈ sortByLe le l ↔ x ∈ l :=
  (sortByLe_perm le l).mem_iff

theorem mem_insertLe {α : Type} (le : α → α → Bool) (a : α) (l : List α) (x : α) :
    x ∈ insertLe le a l ↔ x = a ∨ x ∈ l := by
  rw [(insertLe_perm le a l).mem_iff, List.mem_cons]

theorem pairwise_insertLe {α : Type} (le : α → α → Bool)
    (htot : ∀ a b, le a b = true ∨ le b a = true)
    (htrans : ∀ a b c, le a b = true → le b c = true → le a c = true)
    (a : α) (l : List α) (h : l.Pairwise (fun x y => le x y = true)) :
    (insertLe le a l).Pairwise (fun x y => le x y = true) := by
  induction l with
  | nil => simp [insertLe]
  | cons b bs ih =>
    rcases List.pairwise_cons.mp h with ⟨hb, hbs⟩
    simp only [insertLe]
    by_cases hab : le a b = true
    · simp only [hab, if_true]
      refine List.pairwise_cons.mpr ⟨?_, h⟩
      intro y hy
      rcases List.mem_cons.mp hy with rfl | hy
      · exact hab
      · exact htrans a b y hab (hb y hy)
    · simp only [hab, if_false]
      refine List.pairwise_cons.mpr ⟨?_, ih hbs⟩
      intro y hy
      rcases (mem_insertLe le a bs y).mp hy with rfl | hy
      · rcases htot y b with h1 | h1
        · exact absurd h1 hab
        · exact h1
      · exact hb y hy

theorem pairwise_sortByLe {α : Type} (le : α → α → Bool)
    (htot : ∀ a b, le a b = true ∨ le b a = true)
    (htrans : ∀ a b c, le a b = true → le b c = true → le a c = true)
    (l : List α) :
    (sortByLe le l).Pairwise (fun x y => le x y = true) := by
  induction l with
  | nil => simp [sortByLe]
  | cons a as ih => exact pairwise_insertLe le htot htrans a (sortByLe le as) ih

/-- A comparison obtained by `decide` on the values of a key function
into a linear order is total. -/
theorem keyLe_total {α β : Type} [LinearOrder β] (f : α → β) :
    ∀ a b : α, decide (f a ≤ f b) = true ∨ decide (f b ≤ f a) = true := by
  intro a b
  rcases le_total (f a) (f b) with h | h
  · left; exact decide_eq_true h
  · right; exact decide_eq_true h

/-- A comparison obtained by `decide` on the values of a key function
into a linear order is transitive. -/
theorem keyLe_trans {α β : Type} [LinearOrder β] (f : α → β) :
    ∀ a b c : α, decide (f a ≤ f b) = true → decide (f b ≤ f c) = true →
      decide (f a ≤ f c) = true := by
  intro a b c h1 h2
  exact decide_eq_true (le_trans (of_decide_eq_true h1) (of_decide_eq_true h2))

theorem mem_uniqueAux {α : Type} [DecidableEq α] :
    ∀ (l seen : List α) (x : α), x ∈ uniqueAux seen l ↔ x ∈ l ∧ x ∉ seen := by
  intro l
  induction l with
  | nil => intro seen x; simp [uniqueAux]
  | cons a as ih =>
    intro seen x
    simp only [uniqueAux]
    by_cases ha : a ∈ seen
    · rw [if_pos ha, ih]
      constructor
      · rintro ⟨h1, h2⟩
        exact ⟨List.mem_cons_of_mem a h1, h2⟩
      · rintro ⟨h1, h2⟩
        rcases List.mem_cons.mp h1 with rfl | h1
        · exact absurd ha h2
        · exact ⟨h1, h2⟩
    · rw [if_neg ha]
      constructor
      · intro hx
        rcases List.mem_cons.mp hx with rfl | hx
        · exact ⟨List.mem_cons_self x as, ha⟩
        · rcases (ih (a :: seen) x).mp hx with ⟨h1, h2⟩
          refine ⟨List.mem_cons_of_mem a h1, fun hc => h2 (List.mem_cons_of_mem a hc)⟩
      · rintro ⟨h1, h2⟩
        rcases List.mem_cons.mp h1 with rfl | h1
        · exact List.mem_cons_self x _
        · by_cases hxa : x = a
          · subst hxa; exact List.mem_cons_self x _
          · refine List.mem_cons_of_mem a ((ih (a :: seen) x).mpr ⟨h1, ?_⟩)
            intro hc
            rcases List.mem_cons.mp hc with h | h
            · exact hxa h
            · exact h2 h

theorem mem_pandasUnique {α : Type} [DecidableEq α] (l : List α) (x : α) :
    x ∈ pandasUnique l ↔ x ∈ l := by
  rw [pandasUnique, mem_uniqueAux]
  simp

/-- The last element of a list, when it exists, is a member. -/
theorem lastMem {α : Type} : ∀ (l : List α) (m : α), l.getLast? = some m → m ∈ l := by
  intro l
  induction l with
  | nil => intro m h; simp [List.getLast?] at h
  | cons a as ih =>
    intro m h
    cases as with
    | nil =>
      simp only [List.getLast?_singleton, Option.some.injEq] at h
      subst h; exact List.mem_singleton_self a
    | cons b bs =>
      rw [List.getLast?_cons_cons] at h
      exact List.mem_cons_of_mem a (ih m h)

/-- A non-empty list has a last element. -/
theorem lastExists {α : Type} : ∀ l : List α, l ≠ [] → ∃ m, l.getLast? = some m := by
  intro l
  induction l with
  | nil => intro h; exact absurd rfl h
  | cons a as ih =>
    intro _
    cases as with
    | nil => exact ⟨a, List.getLast?_singleton a⟩
    | cons b bs =>
      rcases ih (by simp) with ⟨m, hm⟩
      refine ⟨m, ?_⟩
      rw [List.getLast?_cons_cons]
      exact hm

/-- In a pairwise-`R` list the last element is `R`-above every member. -/
theorem pairwiseLastMax {α : Type} {R : α → α → Prop} :
    ∀ (l : List α) (m : α), l.Pairwise R → l.getLast? = some m →
      ∀ x ∈ l, x = m ∨ R x m := by
  intro l
  induction l with
  | nil => intro m _ _ x hx; simp at hx
  | cons a as ih =>
    intro m hp hm x hx
    rcases List.pairwise_cons.mp hp with ⟨ha, has⟩
    cases as with
    | nil =>
      simp only [List.getLast?_singleton, Option.some.injEq] at hm
      subst hm
      rcases List.mem_singleton.mp hx with rfl
      exact Or.inl rfl
    | cons b bs =>
      rw [List.getLast?_cons_cons] at hm
      rcases List.mem_cons.mp hx with rfl | hx
      · exact Or.inr (ha m (lastMem (b :: bs) m hm))
      · exact ih m has hm x hx

/-- Composing two list filters computes the conjunction of the
predicates. -/
theorem filterFilter {α : Type} (p q : α → Bool) :
    ∀ l : List α, (l.filter p).filter q = l.filter (fun a => p a && q a) := by
  intro l
  induction l with
  | nil => rfl
  | cons a as ih =>
    by_cases hp : p a = true
    · by_cases hq : q a = true
      · simp [List.filter_cons, hp, hq, ih]
      · simp [List.filter_cons, hp, hq, ih]
    · simp [List.filter_cons, hp, ih]

/-! ## Lemmas about the fetch loop -/

/-- A variant whose response is not a 200 is skipped in favour of the
remaining variants. -/
theorem goFetchSkip (resp : Option String → Resp) (g : Option String)
    (gs : List (Option String)) (h : ok200 (resp g) = false) :
    goFetch resp (g :: gs) = goFetch resp gs := by
  cases hr : resp g with
  | ok s body =>
    have hs : (s == 200) = false := by
      rw [hr] at h
      simpa [ok200] using h
    simp [goFetch, hr, hs]
  | exc => simp [goFetch, hr]

/-- The fetch loop returns `none` exactly when no variant answers 200. -/
theorem goFetchNoneIff (resp : Option String → Resp) :
    ∀ l : List (Option String),
      goFetch resp l = none ↔ ∀ g ∈ l, ok200 (resp g) = false := by
  intro l
  induction l with
  | nil => simp [goFetch]
  | cons g gs ih =>
    by_cases hok : ok200 (resp g) = true
    · cases hr : resp g with
      | ok s body =>
        rw [hr] at hok
        simp only [ok200] at hok
        simp only [goFetch, hr, hok, if_true]
        constructor
        · intro h; exact absurd h (by simp)
        · intro h
          have hg := h g (List.mem_cons_self g gs)
          rw [hr] at hg
          simp only [ok200, hok] at hg
          exact Bool.noConfusion hg
      | exc =>
        rw [hr] at hok
        simp [ok200] at hok
    · have hfalse : ok200 (resp g) = false := by
        cases hv : ok200 (resp g)
        · rfl
        · exact absurd hv hok
      rw [goFetchSkip resp g gs hfalse, ih]
      constructor
      · intro h g' hg'
        rcases List.mem_cons.mp hg' with rfl | hg'
        · exact hfalse
        · exact h g' hg'
      · intro h g' hg'
        exact h g' (List.mem_cons_of_mem g hg')

/-! ## The lexicographic string order is a total preorder -/

theorem strLeChTotal : ∀ a b : List Char, strLeCh a b = true ∨ strLeCh b a = true := by
  intro a
  induction a with
  | nil => intro b; left; cases b <;> rfl
  | cons x xs ih =>
    intro b
    cases b with
    | nil => right; rfl
    | cons y ys =>
      rcases Nat.lt_trichotomy x.toNat y.toNat with h | h | h
      · left; simp [strLeCh, h]
      · rcases ih ys with h2 | h2
        · left
          simp only [strLeCh, h, Nat.lt_irrefl, if_false]
          exact h2
        · right
          simp only [strLeCh, h, Nat.lt_irrefl, if_false]
          exact h2
      · right; simp [strLeCh, h]

theorem strLeChTrans : ∀ a b c : List Char,
    strLeCh a b = true → strLeCh b c = true → strLeCh a c = true := by
  intro a
  induction a with
  | nil => intro b c _ _; cases c <;> rfl
  | cons x xs ih =>
    intro b c h1 h2
    cases b with
    | nil => simp [strLeCh] at h1
    | cons y ys =>
      cases c with
      | nil => simp [strLeCh] at h2
      | cons z zs =>
        rcases Nat.lt_trichotomy x.toNat y.toNat with hxy | hxy | hxy
        · rcases Nat.lt_trichotomy y.toNat z.toNat with hyz | hyz | hyz
          · have hxz : x.toNat < z.toNat := Nat.lt_trans hxy hyz
            simp [strLeCh, hxz]
          · have hxz : x.toNat < z.toNat := by omega
            simp [strLeCh, hxz]
          · exfalso
            have hny : ¬ y.toNat < z.toNat := by omega
            simp [strLeCh, hny, hyz] at h2
        · simp only [strLeCh, hxy, Nat.lt_irrefl, if_false] at h1
          rcases Nat.lt_trichotomy y.toNat z.toNat with hyz | hyz | hyz
          · have hxz : x.toNat < z.toNat := by omega
            simp [strLeCh, hxz]
          · have hxz : x.toNat = z.toNat := by omega
            simp only [strLeCh, hyz, Nat.lt_irrefl, if_false] at h2
            simp only [strLeCh, hxz, Nat.lt_irrefl, if_false]
            exact ih ys zs h1 h2
          · exfalso
            have hny : ¬ y.toNat < z.toNat := by omega
            simp [strLeCh, hny, hyz] at h2
        · exfalso
          have hnx : ¬ x.toNat < y.toNat := by omega
          simp [strLeCh, hnx, hxy] at h1

theorem strLeTotal : ∀ a b : String, strLe a b = true ∨ strLe b a = true := by
  intro a b
  exact strLeChTotal a.toList b.toList

theorem strLeTrans : ∀ a b c : String,
    strLe a b = true → strLe b c = true → strLe a c = true := by
  intro a b c h1 h2
  exact strLeChTrans a.toList b.toList c.toList h1 h2

/-- The fetch loop returns the first variant answering 200, with that
response's body. -/
theorem goFetchFirst (resp : Option String → Resp) :
    ∀ (l1 : List (Option String)) (g : Option String) (l2 : List (Option String))
      (b : String), (∀ g' ∈ l1, ok200 (resp g') = false) →
      resp g = .ok 200 b → goFetch resp (l1 ++ g :: l2) = some (g, b) := by
  intro l1
  induction l1 with
  | nil =>
    intro g l2 b _ hg
    simp [goFetch, hg]
  | cons h t ih =>
    intro g l2 b hfail hg
    rw [List.cons_append,
      goFetchSkip resp h (t ++ g :: l2) (hfail h (List.mem_cons_self h t))]
    exact ih g l2 b (fun g' hg' => hfail g' (List.mem_cons_of_mem h hg')) hg

/-! # Claim theorems -/

/-- C1 counterexample: a combined table carrying the raw sentinel cycle
`-1` yields a partitioner cycle set that does contain `-1` (and not
`20`) — `process_shapefiles_selective` applies no `-1 → 20` remap. -/
theorem c1_cycle_remap_counterexample :
    allCyclesOf [negCycleRow] = [-1] ∧
    (-1 : Int) ∈ allCyclesOf [negCycleRow] ∧
    (20 : Int) ∉ allCyclesOf [negCycleRow] := by
  decide

/-- C1 (amended): cycle normalization passes raw cycle values through
unchanged — the partitioner's cycle set contains exactly the raw
`CYCLE` values of the table (so a raw `-1` stays `-1`), and the
per-cycle slice is the plain equality filter on the raw value. -/
theorem c1_cycle_passthrough (rows : List Row) (c : Int) :
    (c ∈ allCyclesOf rows ↔ c ∈ rows.map (fun r => r.CYCLE)) ∧
    cycleSubset rows c = rows.filter (fun r => r.CYCLE == c) := by
  constructor
  · rw [allCyclesOf, mem_sortByLe, mem_pandasUnique]
  · rfl

/-- C2 counterexample: on the categorical threshold set
{MDT, TSTM, SLGT, HIGH} the raster-plot exporter draws the buckets in
lexicographic order HIGH, MDT, SLGT, TSTM — not the qualitative ladder
TSTM, SLGT, MDT, HIGH the claim states. -/
theorem c2_plot_order_counterexample :
    plotThresholds catRowsEx = ["HIGH", "MDT", "SLGT", "TSTM"] ∧
    (["HIGH", "MDT", "SLGT", "TSTM"] : List String) ≠
      ["TSTM", "SLGT", "MDT", "HIGH"] := by
  decide

/-- C2 (amended): the interactive-map exporter draws rows sorted by the
categorical ladder index (categorical layers) or by `safe_float`
(numeric ascending with SIGN last), matching the spec's examples; the
raster-plot exporter draws threshold buckets in plain lexicographic
string order, which coincides with numeric-ascending-SIGN-last on the
probabilistic example but yields HIGH, MDT, SLGT, TSTM on the
categorical example. -/
theorem c2_threshold_draw_orders :
    (∀ rows : List Row,
      (plotThresholds rows).Pairwise (fun a b => strLe a b = true) ∧
      List.Perm (plotThresholds rows) (pandasUnique (rows.map (fun r => r.THRESHOLD))))
    ∧ (∀ rows : List Row,
      (htmlCatSorted rows).Pairwise
        (fun a b => catKey a.THRESHOLD ≤ catKey b.THRESHOLD) ∧
      List.Perm (htmlCatSorted rows) rows)
    ∧ (∀ rows : List Row,
      (htmlNumSorted rows).Pairwise
        (fun a b => safeFloat a.THRESHOLD ≤ safeFloat b.THRESHOLD) ∧
      List.Perm (htmlNumSorted rows) rows)
    ∧ htmlBucketOrder "CATEGORICAL" catRowsEx = ["TSTM", "SLGT", "MDT", "HIGH"]
    ∧ htmlBucketOrder "TORNADO" numRowsEx = ["0.05", "0.30", "0.45", "SIGN"]
    ∧ plotThresholds numRowsEx = ["0.05", "0.30", "0.45", "SIGN"]
    ∧ plotThresholds catRowsEx = ["HIGH", "MDT", "SLGT", "TSTM"] := by
  refine ⟨?_, ?_, ?_, by decide, by decide, by decide, by decide⟩
  · intro rows
    constructor
    · exact pairwise_sortByLe strLe strLeTotal strLeTrans _
    · exact sortByLe_perm _ _
  · intro rows
    constructor
    · have hp := pairwise_sortByLe
        (fun r s : Row => decide (catKey r.THRESHOLD ≤ catKey s.THRESHOLD))
        (keyLe_total (fun r : Row => catKey r.THRESHOLD))
        (keyLe_trans (fun r : Row => catKey r.THRESHOLD)) rows
      exact hp.imp (fun h => of_decide_eq_true h)
    · exact sortByLe_perm _ _
  · intro rows
    constructor
    · have hp := pairwise_sortByLe
        (fun r s : Row => decide (safeFloat r.THRESHOLD ≤ safeFloat s.THRESHOLD))
        (keyLe_total (fun r : Row => safeFloat r.THRESHOLD))
        (keyLe_trans (fun r : Row => safeFloat r.THRESHOLD)) rows
      exact hp.imp (fun h => of_decide_eq_true h)
    · exact sortByLe_perm _ _

/-- C3 counterexample: the outlook tool's shapefile export writes the
subset's geometries exactly as they stand, so a subset containing an
invalid geometry produces a written file containing that same invalid
geometry — no zero-buffer repair happens on this path. -/
theorem c3_no_repair_counterexample :
    outlookShpGeoms
      [{ CYCLE := 20, CATEGORY := some "TORNADO", THRESHOLD := "0.30",
         geometry := exBadGeom }] = [exBadGeom] ∧
    exBadGeom.valid = false := by
  decide

/-- C3 (amended): only the warnings tool repairs geometries — every
geometry written by `save_shapefile` has passed the zero-buffer fix and
is valid (and an already-valid geometry is passed through unchanged),
while the outlook tool's shapefile export writes the subset's
geometries as-is. -/
theorem c3_repair_only_in_warnings (fs : List WFeature) (rows : List Row) :
    (∀ g ∈ fs.map (fun f => fixGeom f.geometry), g.valid = true)
    ∧ (∀ f : WFeature, f.geometry.valid = true → fixGeom f.geometry = f.geometry)
    ∧ outlookShpGeoms rows = rows.map (fun r => r.geometry) := by
  refine ⟨?_, ?_, rfl⟩
  · intro g hg
    rcases List.mem_map.mp hg with ⟨f, _, rfl⟩
    by_cases hv : f.geometry.valid = true
    · simp [fixGeom, hv]
    · simp [fixGeom, hv, buffer0]
  · intro f hv
    simp [fixGeom, hv]

/-- C3 witness: the invalid fixture geometry, once passed through the
warnings tool's repair, is valid. -/
theorem c3_witness : (fixGeom exBadGeom).valid = true :=
  (c3_repair_only_in_warnings
      [{ props := { phenomena := some "TO", significance := some "W" },
         geometry := exBadGeom }] []).1
    (fixGeom exBadGeom) (by decide)

/-- C4: the three processing paths disagree on the `dryt` subset.  The
file-export path selects categories containing the substring "DRY"
(admitting `ISODRYT`), while the plot and map paths pass the config
category `"DRYT"`, which misses their substring branch (guarded by
`category == 'DRY'`, rendered unreachable) and falls to exact equality,
excluding `ISODRYT`.  The final conjunct shows the dead `"DRY"` branch
would have implemented the substring semantics. -/
theorem c4_dryt_path_divergence :
    processHazardSubset "dryt" [isoRow] = some [isoRow]
    ∧ plotConfigs "dryt" = some ("DRYT", "Dry Thunderstorm Outlook")
    ∧ plotFilter "DRYT" [isoRow] = []
    ∧ htmlConfigs "dryt" = some ("Dry Thunderstorm", "DRYT")
    ∧ htmlFilter "DRYT" [isoRow] = []
    ∧ plotFilter "DRY" [isoRow] = [isoRow] := by
  decide

/-- C5 counterexample: the fetch returns at the first status-200
response even when its body is empty, without trying the later variant
that would have answered 200 with a non-empty body — the claim's
"non-empty body" condition is not checked by the code. -/
theorem c5_empty_body_counterexample :
    fetchOutlook respEmptyBody = some (none, "")
    ∧ respEmptyBody (some "lyr") = .ok 200 "payload"
    ∧ ("" : String) ≠ "payload" := by
  decide

/-- C5 (amended): the fetch tries at most the three geometry variants
in the fixed order, returns at the first response with status 200
(regardless of body emptiness), treats a 422 — like any other non-200
outcome — as a signal to try the next variant, and raises the terminal
error exactly when no variant answers 200. -/
theorem c5_fetch_protocol (resp : Option String → Resp) :
    (fetchOutlook resp = none ↔ ∀ g ∈ variants, ok200 (resp g) = false)
    ∧ (∀ l1 g l2 b, variants = l1 ++ g :: l2 →
        (∀ g' ∈ l1, ok200 (resp g') = false) →
        resp g = .ok 200 b → fetchOutlook resp = some (g, b))
    ∧ (∀ g gs b, resp g = .ok 422 b →
        goFetch resp (g :: gs) = goFetch resp gs) := by
  refine ⟨goFetchNoneIff resp variants, ?_, ?_⟩
  · intro l1 g l2 b hv hfail hg
    rw [fetchOutlook, hv]
    exact goFetchFirst resp l1 g l2 b hfail hg
  · intro g gs b hg
    exact goFetchSkip resp g gs (by rw [hg]; rfl)

/-- C5 witness: a 422 on the default variant is skipped and the 200 on
`geom=lyr` is returned. -/
theorem c5_witness : fetchOutlook resp422 = some (some "lyr", "zipdata") :=
  (c5_fetch_protocol resp422).2.1 [none] (some "lyr") [some "nolyr"] "zipdata"
    rfl (by decide) rfl

/-- C6: hazard-token lists drawn from the type-specific allow-list and
format-token lists drawn from {shp, geojson, png, html} pass validation
and control reaches the fetch; any list containing a token outside its
allow-list makes `main` exit with code 1 before the fetch. -/
theorem c6_validator_gate (otype hArg fArg : String) :
    ((parseListArg hArg).all (fun h => (validHazardsFor otype).contains h) = true →
      (parseListArg fArg).all (fun f => validFormats.contains f) = true →
      mainUpToFetch otype (some hArg) (some fArg) none = .fetchAttempt)
    ∧ ((parseListArg hArg).all (fun h => (validHazardsFor otype).contains h) = false →
      ∀ fA cA, mainUpToFetch otype (some hArg) fA cA = .earlyExit 1)
    ∧ (∀ gArg : String,
      (parseListArg hArg).all (fun h => (validHazardsFor otype).contains h) = true →
      (parseListArg gArg).all (fun f => validFormats.contains f) = false →
      ∀ cA, mainUpToFetch otype (some hArg) (some gArg) cA = .earlyExit 1) := by
  refine ⟨?_, ?_, ?_⟩
  · intro h1 h2
    simp only [mainUpToFetch]
    rw [h1, h2]
    rfl
  · intro h1 fA cA
    simp only [mainUpToFetch]
    rw [h1]
    rfl
  · intro gArg h1 h2 cA
    simp only [mainUpToFetch]
    rw [h1, h2]
    rfl

/-- C6 witness: hazard "tornado" with format "png" reaches the fetch;
hazard "bogus" exits with code 1 before any network request. -/
theorem c6_witness :
    mainUpToFetch "convective" (some "tornado") (some "png") none = .fetchAttempt
    ∧ mainUpToFetch "convective" (some "bogus") (some "png") none = .earlyExit 1 :=
  ⟨(c6_validator_gate "convective" "tornado" "png").1 (by decide) (by decide),
   (c6_validator_gate "convective" "bogus" "png").2.1 (by decide) (some "png") none⟩

/-- C7: over the sorted, de-duplicated cycle set of a non-empty table,
selector "latest" resolves to the maximum cycle alone, an unset
selector resolves to every cycle, and an explicit token whose cycle is
not present in the data falls back to all cycles (a warning, never an
error). -/
theorem c7_cycle_selector (rows : List Row) (hne : rows ≠ []) :
    (∃ m, resolveCycles (some "latest") (allCyclesOf rows) = some [m] ∧
      m ∈ allCyclesOf rows ∧ ∀ c ∈ allCyclesOf rows, c ≤ m)
    ∧ resolveCycles none (allCyclesOf rows) = some (allCyclesOf rows)
    ∧ (∀ tok n, tok ≠ "latest" → parseCycleToken tok = some n →
        n ∉ rows.map (fun r => r.CYCLE) →
        resolveCycles (some tok) (allCyclesOf rows) = some (allCyclesOf rows)) := by
  have hmem : ∀ c : Int, c ∈ allCyclesOf rows ↔ c ∈ rows.map (fun r => r.CYCLE) := by
    intro c
    rw [allCyclesOf, mem_sortByLe, mem_pandasUnique]
  have hne2 : allCyclesOf rows ≠ [] := by
    cases rows with
    | nil => exact absurd rfl hne
    | cons r rs =>
      intro h
      have hmm : r.CYCLE ∈ allCyclesOf (r :: rs) :=
        (hmem r.CYCLE).mpr (List.mem_map_of_mem _ (List.mem_cons_self r rs))
      rw [h] at hmm
      exact List.not_mem_nil _ hmm
  refine ⟨?_, rfl, ?_⟩
  · rcases lastExists _ hne2 with ⟨m, hm⟩
    refine ⟨m, ?_, lastMem _ m hm, ?_⟩
    · simp [resolveCycles, hm]
    · have hp := pairwise_sortByLe (fun a b : Int => decide (a ≤ b))
        (keyLe_total (fun a : Int => a)) (keyLe_trans (fun a : Int => a))
        (pandasUnique (rows.map (fun r => r.CYCLE)))
      have hp2 : (allCyclesOf rows).Pairwise (fun a b : Int => a ≤ b) :=
        hp.imp (fun h => of_decide_eq_true h)
      intro c hc
      rcases pairwiseLastMax (allCyclesOf rows) m hp2 hm c hc with rfl | h
      · exact le_refl c
      · exact h
  · intro tok n htok hparse hnot
    have hfil : (allCyclesOf rows).filter (fun c => c == n) = [] := by
      rw [List.filter_eq_nil_iff]
      intro a ha hbeq
      have han : a = n := by simpa using hbeq
      subst han
      exact hnot ((hmem a).mp ha)
    simp only [resolveCycles]
    rw [if_neg htok]
    rw [show parseCycleToken tok = some n from hparse]
    simp [hfil]

/-- C7 witness: on the fixture table with cycles {20, 1, 13, 6, 16},
"latest" resolves to a unique maximum and the absent token "99z" falls
back to all cycles. -/
theorem c7_witness :
    (∃ m, resolveCycles (some "latest") (allCyclesOf cyclesRowsEx) = some [m] ∧
      m ∈ allCyclesOf cyclesRowsEx ∧ ∀ c ∈ allCyclesOf cyclesRowsEx, c ≤ m)
    ∧ resolveCycles (some "99z") (allCyclesOf cyclesRowsEx) =
        some (allCyclesOf cyclesRowsEx) := by
  refine ⟨(c7_cycle_selector cyclesRowsEx (by decide)).1, ?_⟩
  exact (c7_cycle_selector cyclesRowsEx (by decide)).2.2 "99z" 99
    (by decide) (by decide) (by decide)

/-- C8: with both filters given, the warnings filter keeps exactly the
features matching both uppercased codes, sets `count` to the length of
the kept list, passes `valid_at` through, and applying the two filters
in the opposite order yields the same collection. -/
theorem c8_warning_filters (d : WData) (p s : String) :
    (fetchFilter (some p) (some s) d).features =
      d.features.filter (fun f =>
        (f.props.phenomena == some (pyUpper p)) &&
        (f.props.significance == some (pyUpper s)))
    ∧ (fetchFilter (some p) (some s) d).count =
        (fetchFilter (some p) (some s) d).features.length
    ∧ (fetchFilter (some p) (some s) d).valid_at = d.valid_at
    ∧ fetchFilterSigFirst (some p) (some s) d = fetchFilter (some p) (some s) d := by
  refine ⟨?_, rfl, rfl, ?_⟩
  · show (d.features.filter (fun f => phenMatch p f)).filter
        (fun f => sigMatch s f) = _
    rw [filterFilter]
    rfl
  · have hcomm : (fun f => sigMatch s f && phenMatch p f) =
        (fun f : WFeature => phenMatch p f && sigMatch s f) := by
      funext f
      exact Bool.and_comm _ _
    show ({ features := (d.features.filter (fun f => sigMatch s f)).filter
              (fun f => phenMatch p f),
            count := ((d.features.filter (fun f => sigMatch s f)).filter
              (fun f => phenMatch p f)).length,
            valid_at := d.valid_at } : WData) =
        { features := (d.features.filter (fun f => phenMatch p f)).filter
              (fun f => sigMatch s f),
          count := ((d.features.filter (fun f => phenMatch p f)).filter
              (fun f => sigMatch s f)).length,
          valid_at := d.valid_at }
    rw [filterFilter, filterFilter, hcomm]

/-- C9: in the fetch loop every non-200 status (not only 422) and every
request exception falls through to the next geometry variant, and the
terminal error arises only when every variant has failed. -/
theorem c9_fallthrough (resp : Option String → Resp) :
    (∀ g gs s b, resp g = .ok s b → s ≠ 200 →
      goFetch resp (g :: gs) = goFetch resp gs)
    ∧ (∀ g gs, resp g = .exc → goFetch resp (g :: gs) = goFetch resp gs)
    ∧ (fetchOutlook resp = none → ∀ g ∈ variants, ok200 (resp g) = false) := by
  refine ⟨?_, ?_, ?_⟩
  · intro g gs s b hr hs
    apply goFetchSkip
    rw [hr]
    simp only [ok200]
    exact beq_eq_false_iff_ne.mpr hs
  · intro g gs hr
    exact goFetchSkip resp g gs (by rw [hr]; rfl)
  · intro h
    exact (goFetchNoneIff resp variants).mp h

/-- C9 witness: a 404 on the default variant falls through to the
remaining variants. -/
theorem c9_witness :
    goFetch resp404 variants = goFetch resp404 [some "lyr", some "nolyr"] :=
  (c9_fallthrough resp404).1 none [some "lyr", some "nolyr"] 404 "not found"
    rfl (by decide)

/-- C10: a run of the warnings tool whose filters match zero features
still completes with exit code 0, having written the GeoJSON file with
the empty collection (count 0, `valid_at` passed through) and no
shapefile. -/
theorem c10_zero_match (raw : WData) (p s : String)
    (hz : (fetchFilter (some p) (some s) raw).features = []) :
    warnMain (some raw) "both" (some p) (some s) =
      (0, [WEvent.wroteGeoJson
        { features := [], count := 0, valid_at := raw.valid_at }]) := by
  have h2 : (fetchFilter (some p) (some s) raw).count = 0 := by
    have hc : (fetchFilter (some p) (some s) raw).count =
        (fetchFilter (some p) (some s) raw).features.length := rfl
    rw [hc, hz]
    rfl
  have hdata : fetchFilter (some p) (some s) raw =
      { features := [], count := 0, valid_at := raw.valid_at } := by
    have he : fetchFilter (some p) (some s) raw =
        ({ features := (fetchFilter (some p) (some s) raw).features,
           count := (fetchFilter (some p) (some s) raw).count,
           valid_at := (fetchFilter (some p) (some s) raw).valid_at } : WData) := rfl
    rw [he, hz, h2]
    rfl
  simp [warnMain, fetchCurrentWarnings, hdata]

/-- C10 witness: filtering the severe-thunderstorm fixture for tornado
warnings matches nothing, yet the run exits 0 and writes only the empty
GeoJSON collection. -/
theorem c10_witness :
    warnMain (some rawSV) "both" (some "TO") (some "W") =
      (0, [WEvent.wroteGeoJson
        { features := [], count := 0, valid_at := "2025-10-12T00:00:00Z" }]) :=
  c10_zero_match rawSV "TO" "W" (by decide)

end SpcTool
